import Mathlib

/-!
Verification of the stm32f1xx-hal timer driver (src/timer.rs).

The development shallowly embeds the register-level behaviour of the driver:
machine integers (u16/u32) are modelled as Nat with explicit bounds, a panic
(failed unwrap, arithmetic overflow/underflow, division by zero, failed
assert) is modelled as the value none, and the peripheral registers touched
by the driver are an explicit state record.  Register writes issued by an
operation are additionally recorded as an event trace so that write-ordering
properties can be stated.
-/

namespace Stm32Timer

/-- Embedding of compute_arr_presc (src/timer.rs lines 463-469).  Inputs are
u32 register values.  none models a panic: division by zero when freq is 0;
the u32 underflow of ticks - 1 when ticks is 0 (in release builds the wrapped
value instead drives the u16 prescaler increment to 0 and the subsequent
division panics, so both build profiles panic); the u16 overflow of psc + 1
when psc is 65535 (release builds wrap to 0 and panic on division by zero);
and the failed u16::try_from unwrap when ticks / (psc + 1) is 65536 or more.
Note the source applies the final "- 1" AFTER u16::try_from, so the quotient
itself, not the reload value, must fit in 16 bits. -/
def compute_arr_presc (freq clock : Nat) : Option (Nat × Nat) :=
  if freq = 0 then none
  else
    let ticks := clock / freq
    if ticks = 0 then none
    else
      let psc := (ticks - 1) / 65536
      if 65536 ≤ psc + 1 then none
      else
        let q := ticks / (psc + 1)
        if 65536 ≤ q then none
        else some (psc, q - 1)

/-- Helper: on inputs whose tick count is at least 1, not a multiple of
2^16 and below 65535 * 65536, the solver returns the pair given by the
truncating formulas of the source. -/
theorem compute_arr_presc_some (f c t : Nat) (hf : 0 < f) (htc : c / f = t)
    (h1 : 1 ≤ t) (hm : t % 65536 ≠ 0) (hb : t < 65535 * 65536) :
    compute_arr_presc f c = some ((t - 1) / 65536, t / ((t - 1) / 65536 + 1) - 1) := by
  have hf0 : ¬ (f = 0) := by omega
  have ht0 : ¬ (t = 0) := by omega
  have hpsc : ¬ (65536 ≤ (t - 1) / 65536 + 1) := by omega
  have hstrict : t < 65536 * ((t - 1) / 65536 + 1) := by omega
  have hq : t / ((t - 1) / 65536 + 1) < 65536 :=
    (Nat.div_lt_iff_lt_mul (by omega)).mpr (by omega)
  simp only [compute_arr_presc, htc]
  rw [if_neg hf0, if_neg ht0, if_neg hpsc, if_neg (by omega)]

/-- Helper: the ceiling formula of the specification agrees with the
truncating expression computed by the source. -/
theorem ceil_div_eq (t : Nat) (h1 : 1 ≤ t) :
    (t + 65535) / 65536 = (t - 1) / 65536 + 1 := by omega

/-- C1 (amended): for f > 0 with ticks = c / f at least 1, not a positive
multiple of 2^16, and below 65535 * 2^16, compute_arr_presc f c returns
(psc, arr) with psc = ceil(ticks / 2^16) - 1 and arr = ticks / (psc + 1) - 1
(all divisions truncating); and among all (p, r) pairs with
(p + 1) * (r + 1) = ticks and r + 1 at most 2^16, the returned prescaler is
the smallest.  (The original claim, stated for every ticks at least 1, fails
where the code panics: at exact multiples of 2^16 and above 65535 * 2^16.) -/
theorem c1_solver_formula_and_minimality (f c : Nat) (hf : 0 < f)
    (h1 : 1 ≤ c / f) (hm : (c / f) % 65536 ≠ 0) (hb : c / f < 65535 * 65536) :
    compute_arr_presc f c =
      some ((c / f + 65535) / 65536 - 1,
        (c / f) / ((c / f + 65535) / 65536) - 1)
    ∧ (∀ p r : Nat, (p + 1) * (r + 1) = c / f → r + 1 ≤ 65536 →
        (c / f + 65535) / 65536 - 1 ≤ p) := by
  constructor
  · have h := compute_arr_presc_some f c (c / f) hf rfl h1 hm hb
    rw [ceil_div_eq (c / f) h1]
    simpa using h
  · intro p r hpr hr
    have h2 : c / f ≤ (p + 1) * 65536 := by
      calc c / f = (p + 1) * (r + 1) := hpr.symm
      _ ≤ (p + 1) * 65536 := Nat.mul_le_mul (Nat.le_refl (p + 1)) hr
    have h3 : (c / f + 65535) / 65536 < p + 2 :=
      (Nat.div_lt_iff_lt_mul (by omega)).mpr (by omega)
    omega

/-- C1 witness: the general formula evaluated at f = 1000 Hz, c = 8 MHz
(ticks = 8000), together with the minimality instance at (p, r) = (0, 7999). -/
theorem c1_witness :
    compute_arr_presc 1000 8000000 =
      some ((8000000 / 1000 + 65535) / 65536 - 1,
        (8000000 / 1000) / ((8000000 / 1000 + 65535) / 65536) - 1)
    ∧ (8000000 / 1000 + 65535) / 65536 - 1 ≤ 0 := by
  have h := c1_solver_formula_and_minimality 1000 8000000 (by decide) (by decide)
    (by decide) (by decide)
  exact ⟨h.1, h.2 0 7999 (by decide) (by decide)⟩

/-- C1 counterexample: at f = 1 Hz, c = 65536 Hz the tick count is exactly
2^16, the claimed formulas give (psc, arr) = (0, 65535) — a pair fitting both
registers — but the code panics (u16::try_from(65536) fails before the - 1 is
applied), so the solver does not return that pair. -/
theorem c1_counterexample : ¬ (compute_arr_presc 1 65536 = some (0, 65535)) := by
  decide

/-- C2: evaluation at the failing input freq = 1 Hz, clock = 65536 Hz.  The
tick count 65536 is representable (1 ≤ ticks < 2^32) and the pair (0, 65535)
fits both 16-bit registers, yet the code panics (modelled as none) because
u16::try_from is applied to the quotient 65536 before the - 1. -/
theorem c2_panic_at_exact_multiple : compute_arr_presc 1 65536 = none := by
  decide

/-- C3 counterexample: the claim states compute_arr_presc(1, 72000000) =
(1098, 65514); it does not — the reload register value is
72000000 / 1099 - 1 = 65513, not 65514. -/
theorem c3_counterexample :
    ¬ (compute_arr_presc 1 72000000 = some (1098, 65514)) := by
  decide

/-- C3 (amended): for input clock 72 MHz and target 1 Hz the solver produces
ticks = 72000000, prescaler 1098 and reload 72000000 / 1099 - 1 = 65513. -/
theorem c3_72mhz_scenario : compute_arr_presc 1 72000000 = some (1098, 65513) := by
  decide

/-- Interrupt events enum (timer.rs lines 64-68): single variant Update. -/
inductive Event
  | update
  deriving DecidableEq, Repr

/-- Error enum (timer.rs lines 70-74): single variant Canceled. -/
inductive Error
  | canceled
  deriving DecidableEq, Repr

/-- Result of the non-blocking wait, embedding nb::Result of unit and Void:
either Ok (elapsed) or Err(WouldBlock). -/
inductive NbResult
  | ok
  | wouldBlock
  deriving DecidableEq, Repr

/-- Result of cancel, embedding Result of unit and Error. -/
inductive CancelResult
  | ok
  | err (e : Error)
  deriving DecidableEq, Repr

/-- Register state of a general-purpose timer TIMX, restricted to the fields
this driver touches: cr1.cen (counter enable), cr1.urs (update request
source), the prescaler register psc, the auto-reload register arr, the
counter register cnt, the interrupt-enable register dier as a raw register
value (uie is bit 0), and the status-register update-interrupt flag sr.uif. -/
structure TimState where
  cen : Bool
  urs : Bool
  psc : Nat
  arr : Nat
  cnt : Nat
  dier : Nat
  uif : Bool
  deriving DecidableEq, Repr

/-- One register write issued by the driver, recorded in program order. -/
inductive RegOp
  | cr1ClearCen
  | cr1SetCen
  | cr1SetUrs
  | cr1ClearUrs
  | pscWrite (v : Nat)
  | arrWrite (v : Nat)
  | egrSetUg
  deriving DecidableEq, Repr

namespace Tim

/-- tim.cr1.modify clearing cen (pause). -/
def cr1_clear_cen (s : TimState) : TimState × List RegOp :=
  ({ s with cen := false }, [RegOp.cr1ClearCen])

/-- tim.cr1.modify setting cen (resume). -/
def cr1_set_cen (s : TimState) : TimState × List RegOp :=
  ({ s with cen := true }, [RegOp.cr1SetCen])

/-- tim.cr1.modify setting urs. -/
def cr1_set_urs (s : TimState) : TimState × List RegOp :=
  ({ s with urs := true }, [RegOp.cr1SetUrs])

/-- tim.cr1.modify clearing urs. -/
def cr1_clear_urs (s : TimState) : TimState × List RegOp :=
  ({ s with urs := false }, [RegOp.cr1ClearUrs])

/-- tim.psc.write of the prescaler value. -/
def psc_write (v : Nat) (s : TimState) : TimState × List RegOp :=
  ({ s with psc := v }, [RegOp.pscWrite v])

/-- tim.arr.write of the auto-reload value. -/
def arr_write (v : Nat) (s : TimState) : TimState × List RegOp :=
  ({ s with arr := v }, [RegOp.arrWrite v])

/-- tim.egr.write setting ug: the hardware update event reinitialises the
counter and, unless cr1.urs is set, raises the update-interrupt flag. -/
def egr_set_ug (s : TimState) : TimState × List RegOp :=
  ({ s with cnt := 0, uif := if s.urs then s.uif else true }, [RegOp.egrSetUg])

/-- Embedding of CountDownTimer reset (timer.rs lines 411-418): set URS so
the forced update raises no interrupt, write UG, clear URS. -/
def reset (s : TimState) : TimState × List RegOp :=
  let p1 := cr1_set_urs s
  let p2 := egr_set_ug p1.1
  let p3 := cr1_clear_urs p2.1
  (p3.1, p1.2 ++ p2.2 ++ p3.2)

/-- Embedding of CountDownTimer restart_raw (timer.rs lines 343-359):
pause, write prescaler, write auto-reload, forced update via reset, resume. -/
def restart_raw (psc arr : Nat) (s : TimState) : TimState × List RegOp :=
  let p1 := cr1_clear_cen s
  let p2 := psc_write psc p1.1
  let p3 := arr_write arr p2.1
  let p4 := reset p3.1
  let p5 := cr1_set_cen p4.1
  (p5.1, p1.2 ++ p2.2 ++ p3.2 ++ p4.2 ++ p5.2)

/-- Embedding of CountDownTimer listen (timer.rs lines 329-333).  The source
uses dier.write (not modify): svd2rust write starts from the register reset
value 0, so the whole DIER register is replaced by the value with only the
uie bit (bit 0) set. -/
def listen (e : Event) (s : TimState) : TimState :=
  match e with
  | Event.update => { s with dier := 1 }

/-- Embedding of CountDownTimer unlisten (timer.rs lines 336-340): dier.write
with uie cleared, i.e. the whole register is replaced by 0. -/
def unlisten (e : Event) (s : TimState) : TimState :=
  match e with
  | Event.update => { s with dier := 0 }

/-- Embedding of clear_update_interrupt_flag (timer.rs lines 384-386):
sr.modify clearing uif. -/
def clear_update_interrupt_flag (s : TimState) : TimState :=
  { s with uif := false }

/-- Embedding of CountDown wait for TIMX (timer.rs lines 432-439): WouldBlock
when sr.uif is clear, otherwise clear the flag and return Ok. -/
def wait (s : TimState) : NbResult × TimState :=
  if s.uif = false then (NbResult.wouldBlock, s)
  else (NbResult.ok, clear_update_interrupt_flag s)

/-- Embedding of Cancel for TIMX (timer.rs lines 446-455): error Canceled if
cr1.cen is already clear, otherwise clear cen and return Ok. -/
def cancel (s : TimState) : CancelResult × TimState :=
  if s.cen = false then (CancelResult.err Error.canceled, s)
  else (CancelResult.ok, { s with cen := false })

/-- Embedding of micros_since for TIMX (timer.rs lines 396-408), applied to
the u32 clock and the u16 psc and cnt register values.  none models a panic:
division by zero when psc + 1 exceeds clk (freq_divider 0), or the failed
u32::try_from unwrap when the quotient does not fit in 32 bits.  The u64
intermediate arithmetic is exact because 1000000 * cnt stays below 2^64. -/
def micros_since (clk psc cnt : Nat) : Option Nat :=
  let freqDivider := clk / (psc + 1)
  if freqDivider = 0 then none
  else
    let q := 1000000 * cnt / freqDivider
    if q < 4294967296 then some q else none

/-- Embedding of CountDown start for TIMX (timer.rs lines 424-430): run the
solver on (timeout, clk) and restart_raw with the resulting pair; a solver
panic propagates. -/
def start (clk freq : Nat) (s : TimState) : Option (TimState × List RegOp) :=
  match compute_arr_presc freq clk with
  | none => none
  | some (psc, arr) => some (restart_raw psc arr s)

end Tim

namespace Timer

/-- Embedding of Timer start_raw (timer.rs lines 312-318): builds the
count-down timer and calls restart_raw with the caller-supplied pair. -/
def start_raw (psc arr : Nat) (s : TimState) : TimState × List RegOp :=
  Tim.restart_raw psc arr s

end Timer

/-- C4: wait returns Ok exactly when sr.uif is set, clears the flag (and
nothing else) when returning Ok, leaves the state unchanged when returning
WouldBlock, and two consecutive calls with no intervening hardware wrap never
both return Ok. -/
theorem c4_wait_spec (s : TimState) :
    ((Tim.wait s).1 = NbResult.ok ↔ s.uif = true)
    ∧ (s.uif = true → (Tim.wait s).2 = { s with uif := false })
    ∧ (s.uif = false → (Tim.wait s).2 = s)
    ∧ ¬ ((Tim.wait s).1 = NbResult.ok ∧ (Tim.wait (Tim.wait s).2).1 = NbResult.ok) := by
  cases hu : s.uif <;>
    simp [Tim.wait, Tim.clear_update_interrupt_flag, hu]

/-- Concrete general-purpose timer state used in witnesses: running, update
flag pending. -/
def timS1 : TimState :=
  { cen := true, urs := false, psc := 0, arr := 7999, cnt := 42, dier := 0, uif := true }

/-- C4 witness: on a state with the flag set, wait clears exactly the flag. -/
theorem c4_witness : (Tim.wait timS1).2 = { timS1 with uif := false } :=
  (c4_wait_spec timS1).2.1 rfl

/-- C6: restart_raw issues exactly the write sequence pause (clear cen),
prescaler write, auto-reload write, URS set, UG set, URS clear, resume (set
cen), in this order; and because URS is set across the forced update, no
spurious update-interrupt flag is raised (uif is preserved). -/
theorem c6_restart_raw_sequence (psc arr : Nat) (s : TimState) :
    (Tim.restart_raw psc arr s).2 =
      [RegOp.cr1ClearCen, RegOp.pscWrite psc, RegOp.arrWrite arr,
        RegOp.cr1SetUrs, RegOp.egrSetUg, RegOp.cr1ClearUrs, RegOp.cr1SetCen]
    ∧ (Tim.restart_raw psc arr s).1.uif = s.uif := by
  constructor
  · rfl
  · rfl

/-- Register state of the Cortex-M system tick timer as touched by this
driver: the reload register, the current-count register, the COUNTFLAG
(wrapped) bit, the counter-enable bit and the interrupt-enable bit. -/
structure SystState where
  reload : Nat
  current : Nat
  countflag : Bool
  enabled : Bool
  tickint : Bool
  deriving DecidableEq, Repr

namespace Syst

/-- Embedding of CountDown start for SYST (timer.rs lines 209-220).  The
clock and timeout are raw integer Hz values (the Hertz wrapper from
crate::time is not under src/ and is modelled from the spec: a peripheral
clock is "an integer Hz value", and dividing two rates yields their integer
ratio).  none models a panic: division by zero when the timeout is 0, the
u32 underflow of clk / timeout - 1 when the quotient is 0 (in release builds
the wrapped value 2^32 - 1 instead fails the assert), or the failed
assert!(rvr < (1 << 24)).  Writing the current-count register clears it and
clears COUNTFLAG. -/
def start (clk timeout : Nat) (s : SystState) : Option SystState :=
  if timeout = 0 then none
  else
    let q := clk / timeout
    if q = 0 then none
    else
      let rvr := q - 1
      if rvr < 16777216 then
        some { s with reload := rvr, current := 0, countflag := false, enabled := true }
      else none

/-- Embedding of Cancel for SYST (timer.rs lines 234-241): error Canceled if
the counter is already disabled, otherwise disable it and return Ok. -/
def cancel (s : SystState) : CancelResult × SystState :=
  if s.enabled = false then (CancelResult.err Error.canceled, s)
  else (CancelResult.ok, { s with enabled := false })

end Syst

/-- C7: the system tick start programs the reload register to exactly
clk / timeout - 1 (integer division), clears the current-count register and
enables the counter; when that value is not strictly below 2^24 — including
the underflowing case clk / timeout = 0 — it fails loudly (assertion /
panic, modelled as none) instead of truncating the reload value. -/
theorem c7_syst_start (clk timeout : Nat) (s : SystState) (hto : 0 < timeout) :
    (1 ≤ clk / timeout → clk / timeout - 1 < 2 ^ 24 →
      Syst.start clk timeout s =
        some { s with
          reload := clk / timeout - 1
          current := 0
          countflag := false
          enabled := true })
    ∧ (1 ≤ clk / timeout → 2 ^ 24 ≤ clk / timeout - 1 →
      Syst.start clk timeout s = none)
    ∧ (clk / timeout = 0 → Syst.start clk timeout s = none) := by
  have hto0 : ¬ (timeout = 0) := by omega
  refine ⟨?_, ?_, ?_⟩
  · intro h1 h2
    simp only [Syst.start, if_neg hto0]
    generalize hq : clk / timeout = q at h1 h2 ⊢
    rw [if_neg (by omega), if_pos (by omega)]
  · intro h1 h2
    simp only [Syst.start, if_neg hto0]
    generalize hq : clk / timeout = q at h1 h2 ⊢
    rw [if_neg (by omega), if_neg (by omega)]
  · intro h0
    simp only [Syst.start, if_neg hto0]
    generalize hq : clk / timeout = q at h0 ⊢
    rw [if_pos h0]

/-- Concrete system tick state used in witnesses: idle, all registers clear. -/
def systS1 : SystState :=
  { reload := 0, current := 0, countflag := false, enabled := false, tickint := false }

/-- C7 witness: starting at 1000 Hz from an 8 MHz clock programs the reload
register to 7999, clears the counter and enables counting. -/
theorem c7_witness :
    Syst.start 8000000 1000 systS1 =
      some { systS1 with
        reload := 8000000 / 1000 - 1
        current := 0
        countflag := false
        enabled := true } :=
  (c7_syst_start 8000000 1000 systS1 (by decide)).1 (by decide) (by decide)

/-- Concrete system tick state with the counter enabled, used in the C5
witness. -/
def systS2 : SystState :=
  { reload := 7999, current := 0, countflag := false, enabled := true, tickint := false }

/-- C5: for the general-purpose timers and for the system tick timer alike,
cancel on an enabled counter clears the counter-enable bit and returns Ok;
cancel on a disabled counter returns the Canceled error and leaves the state
unchanged; hence a second consecutive cancel with no intervening start
errors. -/
theorem c5_cancel_spec (s : TimState) (t : SystState) :
    (s.cen = true → Tim.cancel s = (CancelResult.ok, { s with cen := false }))
    ∧ (s.cen = false → Tim.cancel s = (CancelResult.err Error.canceled, s))
    ∧ (s.cen = true →
        (Tim.cancel (Tim.cancel s).2).1 = CancelResult.err Error.canceled)
    ∧ (t.enabled = true → Syst.cancel t = (CancelResult.ok, { t with enabled := false }))
    ∧ (t.enabled = false → Syst.cancel t = (CancelResult.err Error.canceled, t))
    ∧ (t.enabled = true →
        (Syst.cancel (Syst.cancel t).2).1 = CancelResult.err Error.canceled) := by
  cases hc : s.cen <;> cases he : t.enabled <;>
    simp [Tim.cancel, Syst.cancel, hc, he]

/-- C5 witness: cancel on the running general-purpose state timS1 succeeds
and disables the counter and an immediately following cancel reports
Canceled; the same pair of facts at the running system tick state systS2. -/
theorem c5_witness :
    Tim.cancel timS1 = (CancelResult.ok, { timS1 with cen := false })
    ∧ (Tim.cancel (Tim.cancel timS1).2).1 = CancelResult.err Error.canceled
    ∧ Syst.cancel systS2 = (CancelResult.ok, { systS2 with enabled := false })
    ∧ (Syst.cancel (Syst.cancel systS2).2).1 = CancelResult.err Error.canceled :=
  ⟨(c5_cancel_spec timS1 systS2).1 rfl,
    (c5_cancel_spec timS1 systS2).2.2.1 rfl,
    (c5_cancel_spec timS1 systS2).2.2.2.1 rfl,
    (c5_cancel_spec timS1 systS2).2.2.2.2.2 rfl⟩

/-- Concrete general-purpose timer state with a DIER bit other than uie set
(bit 1, the update DMA-request enable), used as the C8 counterexample. -/
def timS2 : TimState :=
  { cen := true, urs := false, psc := 0, arr := 7999, cnt := 0, dier := 2, uif := false }

/-- C8 counterexample: on a state whose DIER register has another field set
(raw value 2), listen(Event::Update) does not merely set the uie bit — the
claimed result dier = 2 OR 1 = 3 is not produced (the source uses a whole
register write, which resets every other DIER field to 0, leaving 1). -/
theorem c8_counterexample :
    ¬ ((Tim.listen Event.update timS2).dier = Nat.lor timS2.dier 1) := by
  decide

/-- C8 (amended): listen(Event::Update) writes the whole DIER register with
only the uie bit set (value 1) and unlisten writes it to 0 — each call resets
every other DIER field to its reset value 0 rather than preserving it — and
neither call changes any other register of the peripheral. -/
theorem c8_listen_unlisten_frame (e : Event) (s : TimState) :
    (Tim.listen e s).dier = 1 ∧ (Tim.unlisten e s).dier = 0
    ∧ (Tim.listen e s).cen = s.cen ∧ (Tim.listen e s).urs = s.urs
    ∧ (Tim.listen e s).psc = s.psc ∧ (Tim.listen e s).arr = s.arr
    ∧ (Tim.listen e s).cnt = s.cnt ∧ (Tim.listen e s).uif = s.uif
    ∧ (Tim.unlisten e s).cen = s.cen ∧ (Tim.unlisten e s).urs = s.urs
    ∧ (Tim.unlisten e s).psc = s.psc ∧ (Tim.unlisten e s).arr = s.arr
    ∧ (Tim.unlisten e s).cnt = s.cnt ∧ (Tim.unlisten e s).uif = s.uif := by
  cases e
  simp [Tim.listen, Tim.unlisten]

/-- C9: whenever the solver yields (p, r) for (freq, clk), the frequency
entry point start(freq) performs exactly what the raw entry point
start_raw(p, r) performs from the same initial state: same final register
state and same write trace. -/
theorem c9_start_refines_start_raw (clk freq p r : Nat) (s : TimState)
    (h : compute_arr_presc freq clk = some (p, r)) :
    Tim.start clk freq s = some (Timer.start_raw p r s) := by
  simp only [Tim.start, h, Timer.start_raw]

/-- C9 witness: at freq = 1000 Hz, clk = 8 MHz the solver yields (0, 7999)
and start coincides with start_raw 0 7999. -/
theorem c9_witness :
    Tim.start 8000000 1000 timS1 = some (Timer.start_raw 0 7999 timS1) :=
  c9_start_refines_start_raw 8000000 1000 0 7999 timS1 (by decide)

/-- C10: micros_since returns exactly
floor(1000000 * cnt / floor(clk / (psc + 1))) without panicking whenever the
divider floor(clk / (psc + 1)) is positive and the quotient fits in 32bits;
it panics (none) when psc + 1 exceeds clk (divider zero) and when the
quotient is 2^32 or more. -/
theorem c10_micros_since_spec (clk psc cnt : Nat) :
    (0 < clk / (psc + 1) → 1000000 * cnt / (clk / (psc + 1)) < 2 ^ 32 →
      Tim.micros_since clk psc cnt = some (1000000 * cnt / (clk / (psc + 1))))
    ∧ (clk < psc + 1 → Tim.micros_since clk psc cnt = none)
    ∧ (0 < clk / (psc + 1) → 2 ^ 32 ≤ 1000000 * cnt / (clk / (psc + 1)) →
      Tim.micros_since clk psc cnt = none) := by
  refine ⟨?_, ?_, ?_⟩
  · intro h1 h2
    simp only [Tim.micros_since]
    generalize hd : clk / (psc + 1) = d at h1 h2 ⊢
    generalize hq : 1000000 * cnt / d = q at h2 ⊢
    rw [if_neg (by omega), if_pos (by omega)]
  · intro h
    have hd : clk / (psc + 1) = 0 := Nat.div_eq_of_lt h
    simp [Tim.micros_since, hd]
  · intro h1 h2
    simp only [Tim.micros_since]
    generalize hd : clk / (psc + 1) = d at h1 h2 ⊢
    generalize hq : 1000000 * cnt / d = q at h2 ⊢
    rw [if_neg (by omega), if_neg (by omega)]

/-- C10 witness: with an 8 MHz clock, prescaler register 0 and counter 100,
micros_since returns floor(100000000 / 8000000) = 12 microseconds. -/
theorem c10_witness :
    Tim.micros_since 8000000 0 100 = some (1000000 * 100 / (8000000 / (0 + 1))) :=
  (c10_micros_since_spec 8000000 0 100).1 (by decide) (by decide)

end Stm32Timer
